import Mathlib

/-!
Verification development for the payment-reminder caller repository.

The Python services are shallowly embedded as executable Lean definitions:
the relational store is a record of row lists, the provider webhook payloads
are a small JSON value type, machine floats are modelled as rationals, and
fallible Python code is modelled with Except, with the try/except blocks of
the source realised as explicit catch combinators.
-/

namespace PaymentCaller

/-- Payment status enumeration from database/models.py. -/
inductive PaymentStatus where
  | pending
  | paid
  | overdue
  | disputed
  | will_pay
  deriving DecidableEq, Repr

/-- Call status enumeration from database/models.py. -/
inductive CallStatus where
  | completed
  | failed
  | no_answer
  | busy
  | voicemail
  | in_progress
  deriving DecidableEq, Repr

/-- A calendar date (year, month, day), standing in for Python date objects. -/
structure PDate where
  y : Nat
  m : Nat
  d : Nat
  deriving DecidableEq, Repr

/-- A JSON-like value, the type of webhook payloads delivered by the provider. -/
inductive JVal where
  | jnull
  | jbool (b : Bool)
  | jnum (q : ℚ)
  | jstr (s : String)
  | jarr (elems : List JVal)
  | jobj (fields : List (String × JVal))

/-- Python truthiness of a JSON value. -/
def pyTruthy : JVal → Bool
  | .jnull => false
  | .jbool b => b
  | .jnum q => !(q == 0)
  | .jstr s => !(s == "")
  | .jarr es => !es.isEmpty
  | .jobj fs => !fs.isEmpty

/-- First value bound to a key in an association list of JSON fields. -/
def findJ (fs : List (String × JVal)) (k : String) : Option JVal :=
  (fs.find? (fun p => p.1 == k)).map Prod.snd

/-- Python dict.get with a default: raises (AttributeError) when the receiver
is not a dict, which the embedding renders as an Except error. -/
def jGet (v : JVal) (k : String) (dflt : JVal) : Except String JVal :=
  match v with
  | .jobj fs => .ok ((findJ fs k).getD dflt)
  | _ => .error "AttributeError"

/-- The string carried by a JSON value when it is one, as Python comparisons
against string literals see it. -/
def jAsStr? : JVal → Option String
  | .jstr s => some s
  | _ => none

/-- Python str() rendering of a JSON value, used where the source interpolates
a payload field into a string. -/
def pyStr : JVal → String
  | .jstr s => s
  | .jnull => "None"
  | .jbool true => "True"
  | .jbool false => "False"
  | .jnum q => toString q
  | .jarr _ => "[...]"
  | .jobj _ => "{...}"

/-- Python int/float subtraction on payload values: TypeError on non-numbers. -/
def jSub (a b : JVal) : Except String ℚ :=
  match a, b with
  | .jnum x, .jnum y => .ok (x - y)
  | _, _ => .error "TypeError"

/-- The numeric content of a JSON value, zero otherwise (used only for storage
of fields no theorem constrains). -/
def jAsNumD (v : JVal) : ℚ :=
  match v with
  | .jnum q => q
  | _ => 0

/-- A row of the clients table (database/models.py, class Client). -/
structure ClientRow where
  id : Nat
  client_name : String
  company_name : String
  contact_number : String
  google_sheet_id : Option String
  deriving DecidableEq, Repr

/-- A row of the invoices table (database/models.py, class Invoice). -/
structure InvoiceRow where
  id : Nat
  client_id : Nat
  invoice_id : String
  amount_due : ℚ
  due_date : Option PDate
  payment_status : PaymentStatus
  deriving DecidableEq, Repr

/-- A row of the call_logs table (database/models.py, class CallLog). -/
structure CallLogRow where
  id : Nat
  invoice_id : Nat
  vapi_call_id : Option String
  call_status : CallStatus
  call_duration : Option ℚ
  transcript : Option String
  summary : Option String
  recording_url : Option String
  cost : Option ℚ
  payment_promised : Bool
  payment_promise_date : Option PDate
  needs_invoice_resend : Bool
  customer_disputed : Bool
  dispute_reason : Option String
  next_follow_up_date : Option PDate
  language_detected : Option String
  customer_sentiment : Option String
  call_outcome : Option String
  deriving DecidableEq, Repr

/-- The persistence store: the three tables the orchestrator touches, plus
the autoincrement counters the database assigns primary keys from. -/
structure DB where
  clients : List ClientRow
  invoices : List InvoiceRow
  call_logs : List CallLogRow
  next_client_id : Nat
  next_invoice_id : Nat
  next_call_log_id : Nat
  deriving DecidableEq, Repr

/-- A payment dict produced by google_sheets.get_pending_payments and consumed
by the orchestrator. -/
structure PaymentRow where
  client_name : String
  company_name : String
  contact_number : String
  invoice_id : String
  amount_due : ℚ
  due_date : Option PDate
  payment_status : String
  row_number : Nat
  deriving DecidableEq, Repr

/-- The classifier's structured output, as consumed by the orchestrator
(response_parser.parse_call_outcome return shape). -/
structure Outcome where
  payment_status : Option String
  payment_promised : Bool
  payment_promise_date : Option PDate
  needs_invoice_resend : Bool
  customer_disputed : Bool
  dispute_reason : Option String
  next_follow_up_date : Option PDate
  language_detected : Option String
  customer_sentiment : Option String
  notes : Option String
  call_outcome : Option String
  deriving DecidableEq, Repr

/-- Replace the first element satisfying the predicate, as mutating the row an
ORM query .first() returned does. -/
def updateFirstWhere (p : α → Bool) (f : α → α) : List α → List α
  | [] => []
  | x :: xs => if p x then f x :: xs else x :: updateFirstWhere p f xs

/-- The rollback-on-exception semantics of get_db: an uncaught exception in a
session block leaves the store as it was. -/
def catchPy (r : Except String DB) (db : DB) : DB :=
  match r with
  | .ok db2 => db2
  | .error _ => db

/-- The fixed status table of _handle_status_update: provider status strings
mapped onto the internal CallStatus enumeration, defaulting to in_progress. -/
def statusMapping (status : Option String) : CallStatus :=
  if status = some "queued" then CallStatus.in_progress
  else if status = some "ringing" then CallStatus.in_progress
  else if status = some "in-progress" then CallStatus.in_progress
  else if status = some "forwarding" then CallStatus.in_progress
  else if status = some "ended" then CallStatus.completed
  else CallStatus.in_progress

/-- The SQLAlchemy filter CallLog.vapi_call_id == call_id, for a payload call
id value: only a string payload value can match a stored call id. -/
def logMatches (call_id : JVal) (l : CallLogRow) : Bool :=
  match call_id with
  | .jstr s => l.vapi_call_id == some s
  | _ => false

/-- _handle_status_update body before its own try/except: field extraction can
raise on non-dict payload parts; a truthy call id is looked up among the call
logs and, when found, the fixed table rewrites that log's status. -/
def handleStatusUpdateRaw (message : JVal) (db : DB) : Except String DB :=
  match jGet message "call" (.jobj []) with
  | .error e => .error e
  | .ok call_data =>
    match jGet call_data "id" .jnull with
    | .error e => .error e
    | .ok call_id =>
      match jGet message "status" .jnull with
      | .error e => .error e
      | .ok status =>
        if pyTruthy call_id then
          match db.call_logs.find? (logMatches call_id) with
          | some _ =>
            .ok { db with call_logs :=
                    (updateFirstWhere (logMatches call_id)
                      (fun l => { l with call_status := statusMapping (jAsStr? status) })
                      db.call_logs) }
          | none => .ok db
        else .ok db

/-- _handle_status_update: the raw body under its catch-all except clause. -/
def handleStatusUpdate (message : JVal) (db : DB) : DB :=
  catchPy (handleStatusUpdateRaw message db) db

/-- Python str.title for the sentiment/language fields of generate_summary. -/
def titleChars : Bool → List Char → List Char
  | _, [] => []
  | prevAlpha, c :: cs =>
    (if prevAlpha then c.toLower else c.toUpper) :: titleChars c.isAlpha cs

/-- Python str.title. -/
def pyTitle (s : String) : String :=
  String.mk (titleChars false s.toList)

/-- Full month name for strftime %B. -/
def monthName : Nat → String
  | 1 => "January"
  | 2 => "February"
  | 3 => "March"
  | 4 => "April"
  | 5 => "May"
  | 6 => "June"
  | 7 => "July"
  | 8 => "August"
  | 9 => "September"
  | 10 => "October"
  | 11 => "November"
  | 12 => "December"
  | _ => ""

/-- Zero-padded two-digit rendering for strftime %d. -/
def pad2 (n : Nat) : String :=
  if n < 10 then "0" ++ toString n else toString n

/-- strftime("%d %B %Y") on a date. -/
def fmtDayMonthYear (d : PDate) : String :=
  pad2 d.d ++ " " ++ monthName d.m ++ " " ++ toString d.y

/-- response_parser.generate_summary: the human-readable pipe-joined summary
built from the classifier outcome. -/
def generateSummary (o : Outcome) : String :=
  let parts : List String := []
  let status := o.payment_status.getD "unknown"
  let parts := parts ++
    (if status == "paid" then ["Customer confirmed payment already made"]
     else if status == "will_pay" then ["Customer will make payment"]
     else if status == "disputed" then ["Customer disputed the invoice"]
     else [])
  let parts := parts ++
    (if o.payment_promised then
      match o.payment_promise_date with
      | some d => ["Promised to pay by " ++ fmtDayMonthYear d]
      | none => []
     else [])
  let parts := parts ++
    (if o.needs_invoice_resend then ["Requested invoice to be resent"] else [])
  let parts := parts ++
    (if o.customer_disputed then
      ["Dispute reason: " ++ o.dispute_reason.getD "No reason provided"]
     else [])
  let parts := parts ++ ["Language: " ++ pyTitle (o.language_detected.getD "unknown")]
  let parts := parts ++ ["Sentiment: " ++ pyTitle (o.customer_sentiment.getD "neutral")]
  let parts := parts ++
    (match o.notes with
     | some n => if n == "" then [] else [n]
     | none => [])
  String.intercalate " | " parts

/-- _handle_end_of_call body before its own try/except.  The classifier call
(Gemini) is passed in as a function from the transcript and summary it is
invoked on; field extraction and the timestamp subtraction can raise; the
relationship accesses call_log.invoice and invoice.client raise when the
foreign key has no row.  On the found-log path every classifier field is
written onto the log, status is forced to completed, and a classified "paid"
also rewrites the parent invoice's payment_status. -/
def handleEndOfCallRaw (classify : String → String → Outcome) (message : JVal)
    (db : DB) : Except String DB :=
  match jGet message "call" (.jobj []) with
  | .error e => .error e
  | .ok call_data =>
    match jGet call_data "id" .jnull with
    | .error e => .error e
    | .ok call_id =>
      if pyTruthy call_id then
        match jGet message "transcript" (.jstr "") with
        | .error e => .error e
        | .ok transcriptJ =>
          match jGet message "summary" (.jstr "") with
          | .error e => .error e
          | .ok summaryJ =>
            match jGet call_data "recordingUrl" .jnull with
            | .error e => .error e
            | .ok recording =>
              match jGet call_data "startedAt" (.jnum 0) with
              | .error e => .error e
              | .ok started =>
                match jGet call_data "endedAt" (.jnum 0) with
                | .error e => .error e
                | .ok ended =>
                  match (if pyTruthy ended && pyTruthy started
                         then jSub ended started else .ok 0) with
                  | .error e => .error e
                  | .ok duration =>
                    match jGet call_data "cost" (.jnum 0) with
                    | .error e => .error e
                    | .ok cost =>
                      let transcriptJ2 :=
                        if pyTruthy transcriptJ then transcriptJ
                        else .jstr "No transcript available"
                      let transcript := pyStr transcriptJ2
                      let outcome := classify transcript (pyStr summaryJ)
                      let response_summary := generateSummary outcome
                      match db.call_logs.find? (logMatches call_id) with
                      | none => .ok db
                      | some l =>
                        match db.invoices.find? (fun i => i.id == l.invoice_id) with
                        | none => .error "AttributeError"
                        | some inv =>
                          match db.clients.find? (fun c => c.id == inv.client_id) with
                          | none => .error "AttributeError"
                          | some _ =>
                            let upd : CallLogRow → CallLogRow := fun cl =>
                              { cl with
                                call_status := CallStatus.completed
                                call_duration := some duration
                                transcript := some transcript
                                summary := some response_summary
                                recording_url := jAsStr? recording
                                cost := some (jAsNumD cost)
                                payment_promised := outcome.payment_promised
                                payment_promise_date := outcome.payment_promise_date
                                needs_invoice_resend := outcome.needs_invoice_resend
                                customer_disputed := outcome.customer_disputed
                                dispute_reason := outcome.dispute_reason
                                next_follow_up_date := outcome.next_follow_up_date
                                language_detected := outcome.language_detected
                                customer_sentiment := outcome.customer_sentiment
                                call_outcome := outcome.call_outcome }
                            let logs2 := updateFirstWhere (logMatches call_id) upd db.call_logs
                            let invs2 :=
                              if outcome.payment_status = some "paid" then
                                updateFirstWhere (fun i => i.id == l.invoice_id)
                                  (fun i => { i with payment_status := PaymentStatus.paid })
                                  db.invoices
                              else db.invoices
                            .ok { db with call_logs := logs2, invoices := invs2 }
      else .ok db

/-- _handle_end_of_call: the raw body under its catch-all except clause. -/
def handleEndOfCall (classify : String → String → Outcome) (message : JVal)
    (db : DB) : DB :=
  catchPy (handleEndOfCallRaw classify message db) db

/-- process_call_webhook body before its catch-all except: dispatch on the
message type; the two stateful branches already absorb their own exceptions. -/
def processCallWebhookRaw (classify : String → String → Outcome)
    (webhook_data : JVal) (db : DB) : Except String DB :=
  match jGet webhook_data "message" (.jobj []) with
  | .error e => .error e
  | .ok message =>
    match jGet message "type" .jnull with
    | .error e => .error e
    | .ok mtype =>
      match jAsStr? mtype with
      | some "status-update" => .ok (handleStatusUpdate message db)
      | some "end-of-call-report" => .ok (handleEndOfCall classify message db)
      | _ => .ok db

/-- process_call_webhook: the raw dispatch under its catch-all except clause. -/
def processCallWebhook (classify : String → String → Outcome) (webhook_data : JVal)
    (db : DB) : DB :=
  catchPy (processCallWebhookRaw classify webhook_data db) db

/-- The attribute accesses the webhook route performs on the parsed payload in
its own logging line, payload.get("message", {}).get("type", "unknown"),
before invoking the orchestrator. -/
def webhookLogAccess (payload : JVal) : Except String JVal :=
  match jGet payload "message" (.jobj []) with
  | .error e => .error e
  | .ok m => jGet m "type" (.jstr "unknown")

/-- The vapi_webhook HTTP route: a body that fails to parse as JSON, or an
exception inside the route's try block, yields a 500 response; otherwise the
orchestrator is invoked and a 200 acknowledgement is returned. -/
def vapiWebhook (classify : String → String → Outcome)
    (parsed : Except String JVal) (db : DB) : DB × Nat :=
  match parsed with
  | .error _ => (db, 500)
  | .ok payload =>
    match webhookLogAccess payload with
    | .error _ => (db, 500)
    | .ok _ => (processCallWebhook classify payload db, 200)

/-- The CallLog row make_single_call inserts when the provider returns a call
id: state in_progress, the provider id, all outcome columns at their model
defaults. -/
def newCallLog (rowId invId : Nat) (cid : String) : CallLogRow :=
  { id := rowId
    invoice_id := invId
    vapi_call_id := some cid
    call_status := CallStatus.in_progress
    call_duration := none
    transcript := none
    summary := none
    recording_url := none
    cost := none
    payment_promised := false
    payment_promise_date := none
    needs_invoice_resend := false
    customer_disputed := false
    dispute_reason := none
    next_follow_up_date := none
    language_detected := none
    customer_sentiment := none
    call_outcome := none }

/-- make_single_call with the provider's response supplied: a returned call id
inserts exactly one in_progress CallLog; no id inserts nothing. -/
def makeSingleCall (vapiResult : Option String) (db_invoice_id : Nat) (db : DB) : DB :=
  match vapiResult with
  | some cid =>
    { db with
      call_logs := db.call_logs ++ [newCallLog db.next_call_log_id db_invoice_id cid]
      next_call_log_id := db.next_call_log_id + 1 }
  | none => db

/-- Truthiness of the optional sheet id argument (None or empty are falsy). -/
def pyTruthyOS : Option String → Bool
  | none => false
  | some s => !(s == "")

/-- The client lookup filter of sync_to_database: match by contact number. -/
def byContact (p : PaymentRow) (c : ClientRow) : Bool :=
  c.contact_number == p.contact_number

/-- The invoice lookup filter of sync_to_database: match by external id. -/
def byInvoice (p : PaymentRow) (i : InvoiceRow) : Bool :=
  i.invoice_id == p.invoice_id

/-- The Client row created by sync_to_database for a first-seen contact:
its sheet association is the supplied sheet id when truthy, the configured
default otherwise. -/
def mkClient (sheet_id : Option String) (default_sheet : String) (nid : Nat)
    (p : PaymentRow) : ClientRow :=
  { id := nid
    client_name := p.client_name
    company_name := p.company_name
    contact_number := p.contact_number
    google_sheet_id :=
      some ((if pyTruthyOS sheet_id then sheet_id else none).getD default_sheet) }

/-- The Invoice row created by sync_to_database for a first-seen invoice id,
always in pending status. -/
def mkInvoice (nid cid : Nat) (p : PaymentRow) : InvoiceRow :=
  { id := nid
    client_id := cid
    invoice_id := p.invoice_id
    amount_due := p.amount_due
    due_date := p.due_date
    payment_status := PaymentStatus.pending }

/-- The body of sync_to_database for one payment dict: find-or-create the
client by contact number (updating its sheet association when a different
truthy sheet id is supplied), then find-or-create the invoice by external
invoice id, new invoices starting as pending. -/
def syncOne (sheet_id : Option String) (default_sheet : String) (db : DB)
    (p : PaymentRow) : DB :=
  let found := db.clients.find? (byContact p)
  let cid :=
    match found with
    | none => db.next_client_id
    | some c => c.id
  let db1 :=
    match found with
    | none =>
      { db with
        clients := db.clients ++ [mkClient sheet_id default_sheet db.next_client_id p]
        next_client_id := db.next_client_id + 1 }
    | some c =>
      if pyTruthyOS sheet_id && !(c.google_sheet_id == sheet_id) then
        { db with
          clients := updateFirstWhere (byContact p)
            (fun c2 => { c2 with google_sheet_id := sheet_id }) db.clients }
      else db
  match db1.invoices.find? (byInvoice p) with
  | none =>
    { db1 with
      invoices := db1.invoices ++ [mkInvoice db1.next_invoice_id cid p]
      next_invoice_id := db1.next_invoice_id + 1 }
  | some _ => db1

/-- sync_to_database: one pass over the payment dicts in order. -/
def syncToDatabase (sheet_id : Option String) (default_sheet : String) (db : DB)
    (payments : List PaymentRow) : DB :=
  payments.foldl (syncOne sheet_id default_sheet) db

/-- The sheet association sync_to_database guarantees after handling a
payment: a truthy supplied sheet id is the client's stored association. -/
def sheetOk (sid : Option String) (c : ClientRow) : Prop :=
  pyTruthyOS sid = true → c.google_sheet_id = sid

/-- The client-side postcondition of one sync step for a payment. -/
def clientSynced (sid : Option String) (db : DB) (p : PaymentRow) : Prop :=
  ∃ c, db.clients.find? (byContact p) = some c ∧ sheetOk sid c

/-- The invoice-side postcondition of one sync step for a payment. -/
def invoiceSynced (db : DB) (p : PaymentRow) : Prop :=
  ∃ i, db.invoices.find? (byInvoice p) = some i

/-- A payment already reconciled into the store for a given sheet id. -/
def synced (sid : Option String) (db : DB) (p : PaymentRow) : Prop :=
  clientSynced sid db p ∧ invoiceSynced db p

/-- One step of the dispatch loop of make_calls_with_rate_limit, as a trace. -/
inductive CallEvent where
  | call (p : PaymentRow)
  | sleep (d : ℚ)
  deriving DecidableEq, Repr

/-- The loop of make_calls_with_rate_limit: one call per payment in order,
with the fixed delay slept after every call except the last. -/
def callLoop (delay : ℚ) : List PaymentRow → List CallEvent
  | [] => []
  | [p] => [CallEvent.call p]
  | p :: q :: ps => CallEvent.call p :: CallEvent.sleep delay :: callLoop delay (q :: ps)

/-- make_calls_with_rate_limit as the trace of calls and blocking sleeps it
performs, the delay being 60 / call_rate_limit_per_minute seconds. -/
def makeCallsWithRateLimit (rate_limit : ℕ) (payments : List PaymentRow) :
    List CallEvent :=
  callLoop (60 / (rate_limit : ℚ)) payments

/-- Total blocking sleep time of a dispatch trace. -/
def totalSleep : List CallEvent → ℚ
  | [] => 0
  | CallEvent.call _ :: es => totalSleep es
  | CallEvent.sleep d :: es => d + totalSleep es

/-- The calls of a dispatch trace, in dispatch order. -/
def callsOf : List CallEvent → List PaymentRow
  | [] => []
  | CallEvent.call p :: es => p :: callsOf es
  | CallEvent.sleep _ :: es => callsOf es

/-- Python str.replace on character lists, scanning left to right and
replacing non-overlapping occurrences; the fuel argument (instantiated with
the list length) keeps the recursion structural. -/
def replaceFuel (pat rep : List Char) : Nat → List Char → List Char
  | _, [] => []
  | 0, rest => rest
  | Nat.succ fuel, c :: cs =>
    if pat ≠ [] ∧ pat.isPrefixOf (c :: cs) then
      rep ++ replaceFuel pat rep fuel (List.drop (pat.length - 1) cs)
    else c :: replaceFuel pat rep fuel cs

/-- Python str.replace. -/
def pyReplace (s pat rep : String) : String :=
  String.mk (replaceFuel pat.toList rep.toList s.toList.length s.toList)

/-- Python str.strip on a character list: whitespace removed from both ends. -/
def trimChars (l : List Char) : List Char :=
  ((l.dropWhile Char.isWhitespace).reverse.dropWhile Char.isWhitespace).reverse

/-- Python str.strip. -/
def pyStrip (s : String) : String :=
  String.mk (trimChars s.toList)

/-- Python str.lower. -/
def pyLower (s : String) : String :=
  String.mk (s.toList.map Char.toLower)

/-- Containment of one character list in another (the Python in operator). -/
def listContains (hay needle : List Char) : Bool :=
  match hay with
  | [] => needle.isEmpty
  | _ :: t => needle.isPrefixOf hay || listContains t needle

/-- The Python substring test needle in hay. -/
def pyContains (hay needle : String) : Bool :=
  listContains hay.toList needle.toList

/-- Split a character list on a separator character. -/
def splitOnChar (sep : Char) : List Char → List (List Char)
  | [] => [[]]
  | c :: cs =>
    if c = sep then [] :: splitOnChar sep cs
    else
      match splitOnChar sep cs with
      | [] => [[c]]
      | h :: t => (c :: h) :: t

/-- Numeric value of a digit list. -/
def natOfDigits (l : List Char) : Nat :=
  l.foldl (fun a c => a * 10 + (c.toNat - 48)) 0

/-- Python float() restricted to strings of digits and dots, as produced by
_parse_amount's cleaning pass: defined exactly when there is at most one dot
and at least one digit, returning the scaled integer value together with the
number of fractional digits. -/
def pyFloatParts? (l : List Char) : Option (Nat × Nat) :=
  match splitOnChar '.' l with
  | [intPart] =>
    if intPart ≠ [] ∧ intPart.all Char.isDigit then some (natOfDigits intPart, 0)
    else none
  | [intPart, fracPart] =>
    if (intPart ≠ [] ∨ fracPart ≠ []) ∧ intPart.all Char.isDigit ∧
        fracPart.all Char.isDigit then
      some (natOfDigits intPart * 10 ^ fracPart.length + natOfDigits fracPart,
        fracPart.length)
    else none
  | _ => none

/-- The cleaning-and-float pipeline of _parse_amount up to the final numeric
value: None on every branch that yields 0.0. -/
def parseAmountParts (amount : String) : Option (Nat × Nat) :=
  if amount == "" then none
  else
    let amount_str :=
      pyStrip (pyReplace (pyReplace (pyReplace (pyReplace amount "₹" "") "Rs" "") "," "") " " "")
    let cleaned := amount_str.toList.filter (fun c => c.isDigit || c == '.')
    if cleaned.isEmpty then none
    else pyFloatParts? cleaned

/-- The rational value of a scaled-integer float result, zero when absent. -/
def ratOfParts : Option (Nat × Nat) → ℚ
  | some (n, e) => (n : ℚ) / (10 : ℚ) ^ e
  | none => 0

/-- google_sheets._parse_amount: strip currency symbols, separators and
whitespace, keep digits and dots, then float(), any failure giving 0.0. -/
def parseAmount (amount : String) : ℚ :=
  ratOfParts (parseAmountParts amount)

/-- Leap year rule used by Python's date validation. -/
def isLeap (y : Nat) : Bool :=
  (y % 4 == 0 && y % 100 != 0) || (y % 400 == 0)

/-- Days in a month, for strptime's day-of-month validation. -/
def daysInMonth (y m : Nat) : Nat :=
  if m = 2 then (if isLeap y then 29 else 28)
  else if m = 4 ∨ m = 6 ∨ m = 9 ∨ m = 11 then 30
  else 31

/-- strptime(s, "%Y-%m-%d"): three dash-separated digit groups forming a
valid calendar date; anything else fails (modelled as none). -/
def parseDateYMD (s : String) : Option PDate :=
  match splitOnChar '-' s.toList with
  | [y, m, d] =>
    if y.length = 4 ∧ y.all Char.isDigit ∧
        m ≠ [] ∧ m.length ≤ 2 ∧ m.all Char.isDigit ∧
        d ≠ [] ∧ d.length ≤ 2 ∧ d.all Char.isDigit then
      let yn := natOfDigits y
      let mn := natOfDigits m
      let dn := natOfDigits d
      if 1 ≤ mn ∧ mn ≤ 12 ∧ 1 ≤ dn ∧ dn ≤ daysInMonth yn mn then
        some ⟨yn, mn, dn⟩
      else none
    else none
  | _ => none

/-- Month number of a strptime %b abbreviated month name, case-insensitively. -/
def monthOfAbbrev (l : List Char) : Option Nat :=
  let s := String.mk (l.map Char.toLower)
  if s == "jan" then some 1
  else if s == "feb" then some 2
  else if s == "mar" then some 3
  else if s == "apr" then some 4
  else if s == "may" then some 5
  else if s == "jun" then some 6
  else if s == "jul" then some 7
  else if s == "aug" then some 8
  else if s == "sep" then some 9
  else if s == "oct" then some 10
  else if s == "nov" then some 11
  else if s == "dec" then some 12
  else none

/-- strptime %y two-digit year pivot: 00-68 are 2000s, 69-99 are 1900s. -/
def yearOfTwoDigits (n : Nat) : Nat :=
  if n ≤ 68 then 2000 + n else 1900 + n

/-- A digit group of bounded width, as the numeric strptime directives match. -/
def digitGroup? (maxLen : Nat) (l : List Char) : Option Nat :=
  if l ≠ [] ∧ l.length ≤ maxLen ∧ l.all Char.isDigit then some (natOfDigits l)
  else none

/-- Day-and-month validity shared by the strptime formats. -/
def validDMY (dn mn yn : Nat) : Bool :=
  1 ≤ mn && mn ≤ 12 && 1 ≤ dn && dn ≤ daysInMonth yn mn

/-- strptime(s, "%d-%b-%y"), e.g. 25-Apr-25. -/
def parseDateDbyY2 (s : String) : Option PDate :=
  match splitOnChar '-' s.toList with
  | [d, b, y] =>
    match digitGroup? 2 d, monthOfAbbrev b, digitGroup? 2 y with
    | some dn, some mn, some y2 =>
      let yn := yearOfTwoDigits y2
      if y.length = 2 ∧ validDMY dn mn yn then some ⟨yn, mn, dn⟩ else none
    | _, _, _ => none
  | _ => none

/-- strptime(s, "%d-%b-%Y"), e.g. 25-Apr-2025. -/
def parseDateDbyY4 (s : String) : Option PDate :=
  match splitOnChar '-' s.toList with
  | [d, b, y] =>
    match digitGroup? 2 d, monthOfAbbrev b, digitGroup? 4 y with
    | some dn, some mn, some yn =>
      if y.length = 4 ∧ validDMY dn mn yn then some ⟨yn, mn, dn⟩ else none
    | _, _, _ => none
  | _ => none

/-- strptime(s, "%d/%m/%Y"), e.g. 25/04/2025. -/
def parseDateDMY (s : String) : Option PDate :=
  match splitOnChar '/' s.toList with
  | [d, m, y] =>
    match digitGroup? 2 d, digitGroup? 2 m, digitGroup? 4 y with
    | some dn, some mn, some yn =>
      if y.length = 4 ∧ validDMY dn mn yn then some ⟨yn, mn, dn⟩ else none
    | _, _, _ => none
  | _ => none

/-- google_sheets._parse_date: the four formats tried in priority order, a
failure of all of them giving None rather than an error. -/
def parseDate (date_str : String) : Option PDate :=
  if date_str == "" then none
  else
    match parseDateDbyY2 date_str with
    | some d => some d
    | none =>
      match parseDateDbyY4 date_str with
      | some d => some d
      | none =>
        match parseDateDMY date_str with
        | some d => some d
        | none => parseDateYMD date_str

/-- The classifier's raw parsed JSON record, dates still being the strings
the model emitted (the shape json.loads hands to parse_call_outcome). -/
structure RawOutcome where
  payment_status : Option String
  payment_promised : Bool
  payment_promise_date : Option String
  needs_invoice_resend : Bool
  customer_disputed : Bool
  dispute_reason : Option String
  next_follow_up_date : Option String
  language_detected : Option String
  customer_sentiment : Option String
  notes : Option String
  call_outcome : Option String
  deriving DecidableEq, Repr

/-- The in-place date conversion of parse_call_outcome: a truthy date string
is parsed with strptime %Y-%m-%d, an inner failure degrading to None; a falsy
value is left alone (absent either way). -/
def pyDateConv (v : Option String) : Option PDate :=
  match v with
  | none => none
  | some s => if s == "" then none else parseDateYMD s

/-- The per-field copy of the classifier dict with its two date fields
converted, as parse_call_outcome returns it on the success path. -/
def convertOutcome (raw : RawOutcome) : Outcome :=
  { payment_status := raw.payment_status
    payment_promised := raw.payment_promised
    payment_promise_date := pyDateConv raw.payment_promise_date
    needs_invoice_resend := raw.needs_invoice_resend
    customer_disputed := raw.customer_disputed
    dispute_reason := raw.dispute_reason
    next_follow_up_date := pyDateConv raw.next_follow_up_date
    language_detected := raw.language_detected
    customer_sentiment := raw.customer_sentiment
    notes := raw.notes
    call_outcome := raw.call_outcome }

/-- The deterministic fallback record parse_call_outcome returns when any
step of the model call or JSON decoding raised. -/
def fallbackOutcome (e : String) : Outcome :=
  { payment_status := some "other"
    payment_promised := false
    payment_promise_date := none
    needs_invoice_resend := false
    customer_disputed := false
    dispute_reason := none
    next_follow_up_date := none
    language_detected := some "unknown"
    customer_sentiment := some "neutral"
    notes := some ("Error parsing: " ++ e)
    call_outcome := some "unsuccessful" }

/-- response_parser.parse_call_outcome with the outcome of the model call and
JSON decoding supplied as input: the try block converts the dates of a
successful decode, while any error is absorbed into the fallback record. -/
def parseCallOutcome (modelResult : Except String RawOutcome) : Outcome :=
  match modelResult with
  | .ok raw => convertOutcome raw
  | .error e => fallbackOutcome e

/-- googlesheets._is_valid_mobile: ten digits after removing spaces, dashes
and the +91 country prefix. -/
def isValidMobile (number : String) : Bool :=
  let cleaned := pyReplace (pyReplace (pyReplace number " " "") "-" "") "+91" ""
  !cleaned.toList.isEmpty && cleaned.toList.all Char.isDigit &&
    cleaned.toList.length == 10

/-- googlesheets._format_mobile: E.164 formatting of a cleaned number. -/
def formatMobile (number : String) : String :=
  let cleaned := pyReplace (pyReplace (pyReplace number " " "") "-" "") "+91" ""
  "+91" ++ cleaned

/-- The cell-by-cell scan of one row for the Mobile No. label, carrying the
row below for the fallback lookup at the same column. -/
def scanColsForMobile : List String → List String → Option String
  | [], _ => none
  | cell :: restCells, nextCells =>
    let low := pyLower cell
    let hit := pyContains low "mobile" && pyContains low "no"
    let cand1 : Option String :=
      if hit then
        match restCells with
        | nxt :: _ =>
          if isValidMobile (pyStrip nxt) then some (formatMobile (pyStrip nxt)) else none
        | [] => none
      else none
    match cand1 with
    | some n => some n
    | none =>
      let cand2 : Option String :=
        if hit then
          match nextCells with
          | below :: _ =>
            if isValidMobile (pyStrip below) then some (formatMobile (pyStrip below))
            else none
          | [] => none
        else none
      match cand2 with
      | some n => some n
      | none => scanColsForMobile restCells nextCells.tail

/-- The row-by-row scan for the Mobile No. label. -/
def scanRowsForMobile : List (List String) → Option String
  | [] => none
  | row :: rest =>
    match scanColsForMobile row (rest.headD []) with
    | some n => some n
    | none => scanRowsForMobile rest

/-- The fallback scan of every cell for any bare valid mobile number. -/
def scanAnyMobile : List (List String) → Option String
  | [] => none
  | row :: rest =>
    match row.find? (fun cell => isValidMobile (pyStrip cell)) with
    | some cell => some (formatMobile (pyStrip cell))
    | none => scanAnyMobile rest

/-- googlesheets._extract_contact_number: label scan first, then the bare
scan, the empty string when both fail. -/
def extractContactNumber (all_data : List (List String)) : String :=
  match scanRowsForMobile all_data with
  | some n => n
  | none =>
    match scanAnyMobile all_data with
    | some n => n
    | none => ""

/-- The space-join of the truthy cells of a row, as _extract_client_name
builds its row text. -/
def rowText (row : List String) : String :=
  String.intercalate " " (row.filter (fun c => !(c == "")))

/-- googlesheets._extract_client_name: the first of the top fifteen rows
whose joined text looks like a company name, with the fixed skip rules. -/
def extractClientName (all_data : List (List String)) : String :=
  go (all_data.take 15)
where
  go : List (List String) → String
  | [] => "Client"
  | row :: rest =>
    let txt := rowText row
    let up := String.mk (txt.toList.map Char.toUpper)
    if pyContains up "CONTIGO" || pyContains up "PVT LTD" then go rest
    else if !(txt == "") && decide (txt.length > 5) &&
        txt.toList.any Char.isUpper then
      if !(pyContains (pyLower txt) "bill" || pyContains (pyLower txt) "details" ||
           pyContains (pyLower txt) "pending" || pyContains (pyLower txt) "date" ||
           pyContains (pyLower txt) "invoice") then
        let clean := pyStrip txt
        if !(clean == "") && decide (clean.length < 100) then clean else go rest
      else go rest
    else go rest

/-- The Python indexing row[i] if i < len(row) else dflt. -/
def cellAt (row : List String) (i : Nat) (dflt : String) : String :=
  (row.get? i).getD dflt

/-- The summary-row keyword test applied to the lowercased invoice cell. -/
def invoiceKwHit (s : String) : Bool :=
  pyContains s "outstanding" || pyContains s "total" || pyContains s "amount" ||
    pyContains s "contact"

/-- The data-row loop of get_pending_payments, from the fixed column layout
(pending amount in column 1, invoice date in 4, invoice id in 6, due date in
7), starting below the fixed header row index. -/
def processRows (client_name company_name contact_number : String) :
    Nat → List (List String) → List PaymentRow
  | _, [] => []
  | idx, row :: rest =>
    let tail := processRows client_name company_name contact_number (idx + 1) rest
    if !row.any (fun c => !(c == "")) then tail
    else
      let invoice_id := cellAt row 6 ""
      if invoice_id == "" then tail
      else if invoiceKwHit (pyLower invoice_id) then tail
      else
        let pending_amount := parseAmount (cellAt row 1 "0")
        if pending_amount ≤ 0 then tail
        else
          let invoice_date := parseDate (cellAt row 4 "")
          let due_date := parseDate (cellAt row 7 "")
          let payment : PaymentRow :=
            { client_name := client_name
              company_name := company_name
              contact_number := contact_number
              invoice_id := pyStrip invoice_id
              amount_due := pending_amount
              due_date := (due_date.or invoice_date)
              payment_status := "pending"
              row_number := idx + 1 }
          if !(contact_number == "") && !(pyStrip invoice_id == "") then
            payment :: tail
          else tail

/-- google_sheets.get_pending_payments on the raw worksheet grid: the fixed
header row index 10, client and contact extraction, then the row loop. -/
def getPendingPayments (all_data : List (List String)) : List PaymentRow :=
  if all_data.length ≤ 10 then []
  else
    let client_name := extractClientName all_data
    let company_name := extractClientName all_data
    let contact_number := extractContactNumber all_data
    processRows client_name company_name contact_number 11 (all_data.drop 11)

/-- An optional JSON field: present or absent from the enclosing object. -/
def optField (k : String) (v : Option JVal) : List (String × JVal) :=
  match v with
  | some x => [(k, x)]
  | none => []

/-- A well-formed status-update webhook message for a call id and a provider
status string. -/
def statusUpdateMsg (cid s : String) : JVal :=
  JVal.jobj [("type", JVal.jstr "status-update"),
             ("call", JVal.jobj [("id", JVal.jstr cid)]),
             ("status", JVal.jstr s)]

/-- A well-formed end-of-call-report webhook message; the timestamps and the
recording reference may be absent from the call object. -/
def endMsg (cid transcript summary : String) (startedAt endedAt : Option ℚ)
    (cost : ℚ) (rec : Option String) : JVal :=
  JVal.jobj [("type", JVal.jstr "end-of-call-report"),
             ("call", JVal.jobj
               ([("id", JVal.jstr cid)] ++
                optField "recordingUrl" (rec.map JVal.jstr) ++
                optField "startedAt" (startedAt.map JVal.jnum) ++
                optField "endedAt" (endedAt.map JVal.jnum) ++
                [("cost", JVal.jnum cost)])),
             ("transcript", JVal.jstr transcript),
             ("summary", JVal.jstr summary)]

/-- A classifier stub returning a fixed outcome, used to instantiate the
webhook theorems at concrete inputs. -/
def constClassifier (o : Outcome) : String → String → Outcome :=
  fun _ _ => o

/-- A concrete classifier outcome with payment_status paid. -/
def outcomePaid : Outcome :=
  { payment_status := some "paid"
    payment_promised := false
    payment_promise_date := none
    needs_invoice_resend := false
    customer_disputed := false
    dispute_reason := none
    next_follow_up_date := none
    language_detected := some "english"
    customer_sentiment := some "positive"
    notes := none
    call_outcome := some "successful" }

/-- A concrete classifier outcome with a non-paid payment_status. -/
def outcomeOther : Outcome :=
  { payment_status := some "will_pay"
    payment_promised := true
    payment_promise_date := some ⟨2025, 5, 1⟩
    needs_invoice_resend := false
    customer_disputed := false
    dispute_reason := none
    next_follow_up_date := none
    language_detected := some "hindi"
    customer_sentiment := some "neutral"
    notes := none
    call_outcome := some "successful" }

/-- The empty persistence store. -/
def emptyDB : DB :=
  { clients := []
    invoices := []
    call_logs := []
    next_client_id := 1
    next_invoice_id := 1
    next_call_log_id := 1 }

/-- A concrete client row for instantiating the webhook theorems. -/
def clientW : ClientRow :=
  { id := 1
    client_name := "ACME Widgets"
    company_name := "ACME Widgets"
    contact_number := "+919876543210"
    google_sheet_id := some "sheet-1" }

/-- A concrete pending invoice row for instantiating the webhook theorems. -/
def invoiceW : InvoiceRow :=
  { id := 1
    client_id := 1
    invoice_id := "INV-001"
    amount_due := 500
    due_date := some ⟨2025, 4, 25⟩
    payment_status := PaymentStatus.pending }

/-- A concrete in-progress call log bound to the invoice above. -/
def callLogW (cid : String) : CallLogRow :=
  newCallLog 1 1 cid

/-- A one-client, one-invoice, one-call store keyed by a provider call id. -/
def dbW (cid : String) : DB :=
  { clients := [clientW]
    invoices := [invoiceW]
    call_logs := [callLogW cid]
    next_client_id := 2
    next_invoice_id := 2
    next_call_log_id := 2 }

/-- A raw classifier record whose promise date string is unparsable. -/
def rawBadDate : RawOutcome :=
  { payment_status := some "will_pay"
    payment_promised := true
    payment_promise_date := some "not-a-date"
    needs_invoice_resend := false
    customer_disputed := false
    dispute_reason := none
    next_follow_up_date := some "2025-13-40"
    language_detected := some "english"
    customer_sentiment := some "neutral"
    notes := some "ok"
    call_outcome := some "successful" }

/-- A concrete payment row for instantiating the dispatch-loop theorem. -/
def payW (inv : String) (amt : ℚ) : PaymentRow :=
  { client_name := "ACME Widgets"
    company_name := "ACME Widgets"
    contact_number := "+919876543210"
    invoice_id := inv
    amount_due := amt
    due_date := none
    payment_status := "pending"
    row_number := 12 }

/-- A concrete three-row batch. -/
def paymentsW : List PaymentRow :=
  [payW "INV-001" 100, payW "INV-002" 200, payW "INV-003" 300]

/-- A concrete worksheet grid in the fixed layout get_pending_payments
expects: ten filler rows, the header at index 10, one data row, and the
contact block. -/
def gridW : List (List String) :=
  [["ACME Widgets"], [], [], [], [], [], [], [], [], [],
   ["h", "Pending", "x", "x", "Date", "x", "Invoice No", "Due"],
   ["", "500", "", "", "01-Apr-25", "", "INV-001", "25-Apr-25"],
   ["Mobile No.", "9876543210"]]

/-- The single pending row the concrete grid above yields. -/
def pendingW : PaymentRow :=
  { client_name := "ACME Widgets"
    company_name := "ACME Widgets"
    contact_number := "+919876543210"
    invoice_id := "INV-001"
    amount_due := parseAmount "500"
    due_date := parseDate "25-Apr-25"
    payment_status := "pending"
    row_number := 12 }

/-- The transcript actually classified: the placeholder is substituted for an
empty provider transcript. -/
def endTranscript (t : String) : String :=
  if (t == "") then "No transcript available" else t

/-- The duration _handle_end_of_call computes from the two optional
timestamps: their difference when both are present and truthy, else zero. -/
def durationModel (st en : Option ℚ) : ℚ :=
  if !(en.getD 0 == 0) && !(st.getD 0 == 0) then en.getD 0 - st.getD 0 else 0

/-- The rewrite _handle_end_of_call applies to the matched call log. -/
def endUpd (classify : String → String → Outcome) (t su : String)
    (st en : Option ℚ) (c : ℚ) (r : Option String) : CallLogRow → CallLogRow :=
  fun cl =>
    let o := classify (endTranscript t) su
    { cl with
      call_status := CallStatus.completed
      call_duration := some (durationModel st en)
      transcript := some (endTranscript t)
      summary := some (generateSummary o)
      recording_url := r
      cost := some c
      payment_promised := o.payment_promised
      payment_promise_date := o.payment_promise_date
      needs_invoice_resend := o.needs_invoice_resend
      customer_disputed := o.customer_disputed
      dispute_reason := o.dispute_reason
      next_follow_up_date := o.next_follow_up_date
      language_detected := o.language_detected
      customer_sentiment := o.customer_sentiment
      call_outcome := o.call_outcome }

/-- The store _handle_end_of_call leaves behind on the found-log path. -/
def endResult (classify : String → String → Outcome) (cid t su : String)
    (st en : Option ℚ) (c : ℚ) (r : Option String) (l : CallLogRow) (db : DB) : DB :=
  { db with
    call_logs := (updateFirstWhere (logMatches (JVal.jstr cid))
      (fun cl2 => endUpd classify t su st en c r cl2) db.call_logs)
    invoices :=
      (if (classify (endTranscript t) su).payment_status = some "paid" then
        updateFirstWhere (fun i => i.id == l.invoice_id)
          (fun i => { i with payment_status := PaymentStatus.paid }) db.invoices
      else db.invoices) }

/-! Helper lemmas shared across the claim theorems. -/

theorem find?_some_of_find?_eq {α} {p : α → Bool} {l : List α} {x : α}
    (hx : l.find? p = some x) : p x = true :=
  List.find?_some hx

theorem find?_updateFirstWhere {α} (p : α → Bool) (f : α → α) (l : List α) (x : α)
    (hx : l.find? p = some x) (hf : p (f x) = true) :
    (updateFirstWhere p f l).find? p = some (f x) := by
  induction l with
  | nil => simp at hx
  | cons a t ih =>
    by_cases ha : p a = true
    · rw [List.find?_cons_of_pos _ ha] at hx
      obtain rfl : a = x := by simpa using hx
      rw [updateFirstWhere, if_pos ha, List.find?_cons_of_pos _ hf]
    · have ha2 : p a = false := by simpa using ha
      rw [List.find?_cons_of_neg _ (by simp [ha2])] at hx
      rw [updateFirstWhere, if_neg (by simp [ha2]),
        List.find?_cons_of_neg _ (by simp [ha2])]
      exact ih hx

theorem statusMapping_eq (s : String) :
    statusMapping (some s) =
      (if s = "ended" then CallStatus.completed else CallStatus.in_progress) := by
  unfold statusMapping
  split_ifs with h1 h2 h3 h4 h5 <;> simp_all

theorem handleStatusUpdate_found (cid s : String) (db : DB) (l : CallLogRow)
    (hcid : cid ≠ "")
    (hfind : db.call_logs.find? (logMatches (JVal.jstr cid)) = some l) :
    handleStatusUpdate (statusUpdateMsg cid s) db =
      { db with call_logs :=
          (updateFirstWhere (logMatches (JVal.jstr cid))
            (fun x => { x with call_status := statusMapping (some s) })
            db.call_logs) } := by
  have hb : (cid == "") = false := by simpa using hcid
  have hred : handleStatusUpdateRaw (statusUpdateMsg cid s) db =
      (if pyTruthy (JVal.jstr cid) then
        match db.call_logs.find? (logMatches (JVal.jstr cid)) with
        | some _ =>
          Except.ok { db with call_logs :=
            (updateFirstWhere (logMatches (JVal.jstr cid))
              (fun x => { x with call_status := statusMapping (some s) })
              db.call_logs) }
        | none => Except.ok db
       else Except.ok db) := rfl
  unfold handleStatusUpdate
  rw [hred]
  simp [pyTruthy, hb, hfind, catchPy]

/-- C1: for every provider status string received in a status-update webhook
whose call id matches an existing CallLog, the mapped internal status follows
the fixed table — in_progress for queued, ringing, in-progress and forwarding,
completed for ended, and in_progress for every other string — totally, and the
matched log's status is rewritten to exactly that value. -/
theorem C1_status_update_mapping (s cid : String) (db : DB) (l : CallLogRow)
    (hcid : cid ≠ "")
    (hfind : db.call_logs.find? (logMatches (JVal.jstr cid)) = some l) :
    statusMapping (some s) =
      (if s = "ended" then CallStatus.completed else CallStatus.in_progress) ∧
    (handleStatusUpdate (statusUpdateMsg cid s) db).call_logs.find?
        (logMatches (JVal.jstr cid)) =
      some { l with call_status :=
        (if s = "ended" then CallStatus.completed else CallStatus.in_progress) } := by
  refine ⟨statusMapping_eq s, ?_⟩
  rw [handleStatusUpdate_found cid s db l hcid hfind]
  have hmatch : logMatches (JVal.jstr cid) l = true := find?_some_of_find?_eq hfind
  have := find?_updateFirstWhere (logMatches (JVal.jstr cid))
    (fun x => { x with call_status := statusMapping (some s) }) db.call_logs l hfind
    (by simpa [logMatches] using hmatch)
  rw [this, statusMapping_eq]

/-- Witness for C1 at the provider status "ended" on a one-log store. -/
theorem C1_status_update_mapping_witness :
    statusMapping (some "ended") = CallStatus.completed ∧
    (handleStatusUpdate (statusUpdateMsg "call-1" "ended") (dbW "call-1")).call_logs.find?
        (logMatches (JVal.jstr "call-1")) =
      some { callLogW "call-1" with call_status := CallStatus.completed } := by
  have h := C1_status_update_mapping "ended" "call-1" (dbW "call-1") (callLogW "call-1")
    (by decide) (by decide)
  simpa using h

/-- C5: the outcome classifier never raises past its boundary — every internal
failure returns the exact fallback record (payment_status other, booleans
false, dates and dispute reason absent, language unknown, sentiment neutral,
outcome unsuccessful, the error description in the notes), and an unparsable
date string in a successful model response degrades to absent. -/
theorem C5_classifier_fallback :
    (∀ e, parseCallOutcome (.error e) =
      { payment_status := some "other"
        payment_promised := false
        payment_promise_date := none
        needs_invoice_resend := false
        customer_disputed := false
        dispute_reason := none
        next_follow_up_date := none
        language_detected := some "unknown"
        customer_sentiment := some "neutral"
        notes := some ("Error parsing: " ++ e)
        call_outcome := some "unsuccessful" }) ∧
    (∀ raw s, raw.payment_promise_date = some s → parseDateYMD s = none →
      (parseCallOutcome (.ok raw)).payment_promise_date = none) ∧
    (∀ raw s, raw.next_follow_up_date = some s → parseDateYMD s = none →
      (parseCallOutcome (.ok raw)).next_follow_up_date = none) := by
  refine ⟨fun e => rfl, ?_, ?_⟩
  · intro raw s hs hparse
    show pyDateConv raw.payment_promise_date = none
    rw [hs]
    show (if s == "" then none else parseDateYMD s) = none
    by_cases hse : s == "" <;> simp [hse, hparse]
  · intro raw s hs hparse
    show pyDateConv raw.next_follow_up_date = none
    rw [hs]
    show (if s == "" then none else parseDateYMD s) = none
    by_cases hse : s == "" <;> simp [hse, hparse]

/-- Witness for C5 at a concrete error and a concrete unparsable-date record. -/
theorem C5_classifier_fallback_witness :
    parseCallOutcome (.error "boom") =
      { payment_status := some "other"
        payment_promised := false
        payment_promise_date := none
        needs_invoice_resend := false
        customer_disputed := false
        dispute_reason := none
        next_follow_up_date := none
        language_detected := some "unknown"
        customer_sentiment := some "neutral"
        notes := some ("Error parsing: " ++ "boom")
        call_outcome := some "unsuccessful" } ∧
    (parseCallOutcome (.ok rawBadDate)).payment_promise_date = none ∧
    (parseCallOutcome (.ok rawBadDate)).next_follow_up_date = none :=
  ⟨C5_classifier_fallback.1 "boom",
   C5_classifier_fallback.2.1 rawBadDate "not-a-date" rfl (by decide),
   C5_classifier_fallback.2.2 rawBadDate "2025-13-40" rfl (by decide)⟩

theorem callsOf_callLoop (d : ℚ) (ps : List PaymentRow) :
    callsOf (callLoop d ps) = ps := by
  induction ps with
  | nil => rfl
  | cons p t ih =>
    cases t with
    | nil => rfl
    | cons q r =>
      simp only [callLoop, callsOf]
      rw [ih]

theorem totalSleep_callLoop (d : ℚ) (ps : List PaymentRow) :
    totalSleep (callLoop d ps) = ((ps.length - 1 : ℕ) : ℚ) * d := by
  induction ps with
  | nil => simp [callLoop, totalSleep]
  | cons p t ih =>
    cases t with
    | nil => simp [callLoop, totalSleep]
    | cons q r =>
      simp only [callLoop, totalSleep]
      rw [ih]
      simp only [List.length_cons, Nat.add_sub_cancel]
      push_cast
      ring

/-- C6: dispatching a non-empty batch of N payments at a configured rate of R
calls per minute produces a strictly sequential trace of the calls in order,
whose blocking sleeps total exactly (N-1) x (60/R) seconds, so the batch takes
at least that long end-to-end. -/
theorem C6_rate_limit (R : ℕ) (payments : List PaymentRow) (hR : 0 < R)
    (hne : payments ≠ []) :
    callsOf (makeCallsWithRateLimit R payments) = payments ∧
    totalSleep (makeCallsWithRateLimit R payments) =
      ((payments.length - 1 : ℕ) : ℚ) * (60 / (R : ℚ)) :=
  ⟨callsOf_callLoop _ _, totalSleep_callLoop _ _⟩

/-- Witness for C6 at R = 10 on a three-payment batch. -/
theorem C6_rate_limit_witness :
    callsOf (makeCallsWithRateLimit 10 paymentsW) = paymentsW ∧
    totalSleep (makeCallsWithRateLimit 10 paymentsW) =
      ((paymentsW.length - 1 : ℕ) : ℚ) * (60 / (10 : ℚ)) :=
  C6_rate_limit 10 paymentsW (by decide) (by decide)

theorem find?_append_some {α} {p : α → Bool} {l1 : List α} (l2 : List α) {x : α}
    (h : l1.find? p = some x) : (l1 ++ l2).find? p = some x := by
  induction l1 with
  | nil => simp at h
  | cons a t ih =>
    by_cases ha : p a = true
    · rw [List.find?_cons_of_pos _ ha] at h
      rw [List.cons_append, List.find?_cons_of_pos _ ha]
      exact h
    · have ha2 : p a = false := by simpa using ha
      rw [List.find?_cons_of_neg _ (by simp [ha2])] at h
      rw [List.cons_append, List.find?_cons_of_neg _ (by simp [ha2])]
      exact ih h

theorem find?_append_none {α} {p : α → Bool} {l1 : List α} (l2 : List α)
    (h : l1.find? p = none) : (l1 ++ l2).find? p = l2.find? p := by
  induction l1 with
  | nil => simp
  | cons a t ih =>
    by_cases ha : p a = true
    · rw [List.find?_cons_of_pos _ ha] at h
      exact absurd h (by simp)
    · have ha2 : p a = false := by simpa using ha
      rw [List.find?_cons_of_neg _ (by simp [ha2])] at h
      rw [List.cons_append, List.find?_cons_of_neg _ (by simp [ha2])]
      exact ih h

theorem find?_updateFirstWhere_untouched {α} (pA pB : α → Bool) (f : α → α)
    (l : List α) (hdisj : ∀ x, pB x = true → pA x = false)
    (hpres : ∀ x, pB (f x) = pB x) :
    (updateFirstWhere pA f l).find? pB = l.find? pB := by
  induction l with
  | nil => rfl
  | cons a t ih =>
    unfold updateFirstWhere
    by_cases hA : pA a = true
    · rw [if_pos hA]
      have hBa : pB a = false := by
        cases hpa : pB a
        · rfl
        · exact absurd (hdisj a hpa) (by simp [hA])
      rw [List.find?_cons_of_neg _ (by simp [hpres, hBa]),
        List.find?_cons_of_neg _ (by simp [hBa])]
    · rw [if_neg hA]
      by_cases hB : pB a = true
      · rw [List.find?_cons_of_pos _ hB, List.find?_cons_of_pos _ hB]
      · have hB2 : pB a = false := by simpa using hB
        rw [List.find?_cons_of_neg _ (by simp [hB2]),
          List.find?_cons_of_neg _ (by simp [hB2])]
        exact ih

theorem ifTranscript (t : String) :
    (if (!t == "") = true then JVal.jstr t else JVal.jstr "No transcript available") =
      JVal.jstr (endTranscript t) := by
  by_cases h : t == "" <;> simp_all [endTranscript]

theorem ifOkDuration (s0 e0 : ℚ) :
    (if (!e0 == 0 && !s0 == 0) = true then Except.ok (ε := String) (e0 - s0)
     else Except.ok 0) = Except.ok (durationModel (some s0) (some e0)) := by
  by_cases h : (!e0 == 0 && !s0 == 0) = true <;> simp [durationModel, h]

theorem durationModel_none_left (en : Option ℚ) : durationModel none en = 0 := by
  simp [durationModel]

theorem durationModel_none_right (st : Option ℚ) : durationModel st none = 0 := by
  simp [durationModel]

theorem handleEndOfCall_found (classify : String → String → Outcome)
    (cid t su : String) (st en : Option ℚ) (c : ℚ) (r : Option String)
    (db : DB) (l : CallLogRow) (inv : InvoiceRow) (cl : ClientRow)
    (hcid : cid ≠ "")
    (hlog : db.call_logs.find? (logMatches (JVal.jstr cid)) = some l)
    (hinv : db.invoices.find? (fun i => i.id == l.invoice_id) = some inv)
    (hcl : db.clients.find? (fun c2 => c2.id == inv.client_id) = some cl) :
    handleEndOfCall classify (endMsg cid t su st en c r) db =
      endResult classify cid t su st en c r l db := by
  have hb : (cid == "") = false := by simpa using hcid
  cases st <;> cases en <;> cases r <;>
    simp only [handleEndOfCall, handleEndOfCallRaw, endMsg, optField, Option.map_some',
      Option.map_none', List.cons_append, List.nil_append, jGet, findJ, List.find?,
      String.reduceBEq, pyTruthy, hb, Bool.not_false, if_true, hlog, hinv, hcl,
      Option.getD_some, Option.getD_none, jSub, jAsStr?, jAsNumD,
      ifTranscript, ifOkDuration, durationModel_none_left, durationModel_none_right,
      pyStr, beq_self_eq_true, Bool.not_true, Bool.false_and, Bool.and_false,
      Bool.false_eq_true, if_false, reduceIte, catchPy, endResult, endUpd]

theorem endOfCall_found_duration (classify : String → String → Outcome)
    (cid t su : String) (st en : Option ℚ) (c : ℚ) (r : Option String)
    (db : DB) (l : CallLogRow) (inv : InvoiceRow) (cl : ClientRow)
    (hcid : cid ≠ "")
    (hlog : db.call_logs.find? (logMatches (JVal.jstr cid)) = some l)
    (hinv : db.invoices.find? (fun i => i.id == l.invoice_id) = some inv)
    (hcl : db.clients.find? (fun c2 => c2.id == inv.client_id) = some cl) :
    ((handleEndOfCall classify (endMsg cid t su st en c r) db).call_logs.find?
        (logMatches (JVal.jstr cid))).map (fun x => x.call_duration) =
      some (some (durationModel st en)) := by
  rw [handleEndOfCall_found classify cid t su st en c r db l inv cl hcid hlog hinv hcl]
  have hmatch : logMatches (JVal.jstr cid) l = true := find?_some_of_find?_eq hlog
  have hupd := find?_updateFirstWhere (logMatches (JVal.jstr cid))
    (fun cl2 => endUpd classify t su st en c r cl2) db.call_logs l hlog
    (by simpa [logMatches, endUpd] using hmatch)
  show ((updateFirstWhere (logMatches (JVal.jstr cid))
    (fun cl2 => endUpd classify t su st en c r cl2) db.call_logs).find?
      (logMatches (JVal.jstr cid))).map (fun x => x.call_duration) = _
  rw [hupd]
  rfl

theorem handleStatusUpdateRaw_invoices (message : JVal) (db : DB) :
    ∀ db2, handleStatusUpdateRaw message db = .ok db2 → db2.invoices = db.invoices := by
  unfold handleStatusUpdateRaw
  intro db2 h
  repeat' split at h
  all_goals try (cases h)
  all_goals refine rfl

theorem handleStatusUpdate_invoices (message : JVal) (db : DB) :
    (handleStatusUpdate message db).invoices = db.invoices := by
  unfold handleStatusUpdate catchPy
  split
  on_goal 1 => rename_i db2 heq; exact handleStatusUpdateRaw_invoices message db db2 heq
  rfl

theorem makeSingleCall_invoices (res : Option String) (iid : Nat) (db : DB) :
    (makeSingleCall res iid db).invoices = db.invoices := by
  cases res <;> rfl

theorem syncOne_inv_mem {sid : Option String} {ds : String} {db : DB}
    {p : PaymentRow} {i : InvoiceRow} (hi : i ∈ (syncOne sid ds db p).invoices) :
    i ∈ db.invoices ∨ i.payment_status = PaymentStatus.pending := by
  unfold syncOne at hi
  rcases hfound : db.clients.find? (byContact p) with _ | c <;> rw [hfound] at hi <;>
    simp only [] at hi
  · rcases hinvf : db.invoices.find? (byInvoice p) with _ | iv <;> rw [hinvf] at hi <;>
      simp only [List.mem_append, List.mem_singleton] at hi
    · rcases hi with h | h
      · exact Or.inl h
      · subst h
        exact Or.inr rfl
    · exact Or.inl hi
  · by_cases hcond : (pyTruthyOS sid && !(c.google_sheet_id == sid)) = true
    · rw [if_pos hcond] at hi
      simp only [] at hi
      rcases hinvf : db.invoices.find? (byInvoice p) with _ | iv <;> rw [hinvf] at hi <;>
        simp only [List.mem_append, List.mem_singleton] at hi
      · rcases hi with h | h
        · exact Or.inl h
        · subst h
          exact Or.inr rfl
      · exact Or.inl hi
    · rw [if_neg hcond] at hi
      rcases hinvf : db.invoices.find? (byInvoice p) with _ | iv <;> rw [hinvf] at hi <;>
        simp only [List.mem_append, List.mem_singleton] at hi
      · rcases hi with h | h
        · exact Or.inl h
        · subst h
          exact Or.inr rfl
      · exact Or.inl hi

theorem syncToDatabase_cons (sid : Option String) (ds : String) (db : DB)
    (p : PaymentRow) (t : List PaymentRow) :
    syncToDatabase sid ds db (p :: t) = syncToDatabase sid ds (syncOne sid ds db p) t := rfl

theorem sync_inv_mem {sid : Option String} {ds : String} {ps : List PaymentRow} :
    ∀ {db : DB} {i : InvoiceRow}, i ∈ (syncToDatabase sid ds db ps).invoices →
      i ∈ db.invoices ∨ i.payment_status = PaymentStatus.pending := by
  induction ps with
  | nil => intro db i hi; exact Or.inl hi
  | cons p t ih =>
    intro db i hi
    rw [syncToDatabase_cons] at hi
    rcases ih hi with h | h
    · exact syncOne_inv_mem h
    · exact Or.inr h

/-- C2: on an end-of-call report whose call id matches a stored CallLog, the
parent Invoice's payment_status is set to paid exactly when the classifier's
payment_status field is "paid"; any other classified value leaves every
invoice row unchanged, and neither the status-update handler, nor a call
dispatch, nor a sheet sync can turn an invoice paid. -/
theorem C2_invoice_paid_iff (classify : String → String → Outcome)
    (cid t su : String) (st en : Option ℚ) (c : ℚ) (r : Option String)
    (db : DB) (l : CallLogRow) (inv : InvoiceRow) (cl : ClientRow)
    (hcid : cid ≠ "")
    (hlog : db.call_logs.find? (logMatches (JVal.jstr cid)) = some l)
    (hinv : db.invoices.find? (fun i => i.id == l.invoice_id) = some inv)
    (hcl : db.clients.find? (fun c2 => c2.id == inv.client_id) = some cl) :
    ((classify (endTranscript t) su).payment_status = some "paid" →
      (handleEndOfCall classify (endMsg cid t su st en c r) db).invoices =
        updateFirstWhere (fun i => i.id == l.invoice_id)
          (fun i => { i with payment_status := PaymentStatus.paid }) db.invoices) ∧
    ((classify (endTranscript t) su).payment_status ≠ some "paid" →
      (handleEndOfCall classify (endMsg cid t su st en c r) db).invoices =
        db.invoices) ∧
    (∀ msg, (handleStatusUpdate msg db).invoices = db.invoices) ∧
    (∀ res iid, (makeSingleCall res iid db).invoices = db.invoices) ∧
    (∀ sid ds ps i, i ∈ (syncToDatabase sid ds db ps).invoices →
      i.payment_status = PaymentStatus.paid → i ∈ db.invoices) := by
  rw [handleEndOfCall_found classify cid t su st en c r db l inv cl hcid hlog hinv hcl]
  refine ⟨fun hp => ?_, fun hp => ?_, fun msg => handleStatusUpdate_invoices msg db,
    fun res iid => makeSingleCall_invoices res iid db, fun sid ds ps i hi hpaid => ?_⟩
  · show (if (classify (endTranscript t) su).payment_status = some "paid" then _ else _) = _
    rw [if_pos hp]
  · show (if (classify (endTranscript t) su).payment_status = some "paid" then _ else _) = _
    rw [if_neg hp]
  · rcases sync_inv_mem hi with h | h
    · exact h
    · rw [hpaid] at h
      exact absurd h (by simp)

/-- Witness for C2: a paid classification on a one-invoice store marks that
invoice paid. -/
theorem C2_invoice_paid_iff_witness :
    (handleEndOfCall (constClassifier outcomePaid)
        (endMsg "call-2" "t" "s" (some 5) (some 65) 1 none) (dbW "call-2")).invoices =
      updateFirstWhere (fun i => i.id == (callLogW "call-2").invoice_id)
        (fun i => { i with payment_status := PaymentStatus.paid })
        (dbW "call-2").invoices :=
  (C2_invoice_paid_iff (constClassifier outcomePaid) "call-2" "t" "s" (some 5) (some 65)
    1 none (dbW "call-2") (callLogW "call-2") invoiceW clientW (by decide)
    rfl rfl rfl).1 rfl

/-- C7 (amended): on an end-of-call report for a known call id, the stored
duration is the end timestamp minus the start timestamp whenever both are
present and non-zero, and zero whenever either timestamp is missing from the
event or either is the falsy value zero. -/
theorem C7_duration (classify : String → String → Outcome)
    (cid t su : String) (st en : Option ℚ) (c : ℚ) (r : Option String)
    (db : DB) (l : CallLogRow) (inv : InvoiceRow) (cl : ClientRow)
    (hcid : cid ≠ "")
    (hlog : db.call_logs.find? (logMatches (JVal.jstr cid)) = some l)
    (hinv : db.invoices.find? (fun i => i.id == l.invoice_id) = some inv)
    (hcl : db.clients.find? (fun c2 => c2.id == inv.client_id) = some cl) :
    ((handleEndOfCall classify (endMsg cid t su st en c r) db).call_logs.find?
        (logMatches (JVal.jstr cid))).map (fun x => x.call_duration) =
      some (some (durationModel st en)) ∧
    (∀ s0 e0, st = some s0 → en = some e0 → s0 ≠ 0 → e0 ≠ 0 →
      durationModel st en = e0 - s0) ∧
    ((st = none ∨ en = none) → durationModel st en = 0) := by
  refine ⟨endOfCall_found_duration classify cid t su st en c r db l inv cl
    hcid hlog hinv hcl, ?_, ?_⟩
  · intro s0 e0 hst hen hs he
    subst hst
    subst hen
    simp [durationModel, hs, he]
  · intro h
    rcases h with h | h <;> subst h <;> simp [durationModel]

/-- Witness for C7 (amended) at timestamps 5 and 65 on a one-log store. -/
theorem C7_duration_witness :
    ((handleEndOfCall (constClassifier outcomeOther)
        (endMsg "call-7b" "hello" "s" (some 5) (some 65) 1 none)
        (dbW "call-7b")).call_logs.find?
      (logMatches (JVal.jstr "call-7b"))).map (fun x => x.call_duration) =
      some (some (durationModel (some 5) (some 65))) ∧
    durationModel (some 5) (some 65) = 65 - 5 := by
  have h := C7_duration (constClassifier outcomeOther) "call-7b" "hello" "s" (some 5)
    (some 65) 1 none (dbW "call-7b") (callLogW "call-7b") invoiceW clientW
    (by decide) rfl rfl rfl
  exact ⟨h.1, h.2.1 5 65 rfl rfl (by norm_num) (by norm_num)⟩

/-- C7 counterexample: a report whose start timestamp is present but zero
stores duration 0, not the end-minus-start difference of 100. -/
theorem C7_duration_counterexample :
    ((handleEndOfCall (constClassifier outcomeOther)
        (endMsg "call-7" "hello" "s" (some 0) (some 100) 1 none)
        (dbW "call-7")).call_logs.find?
      (logMatches (JVal.jstr "call-7"))).map (fun x => x.call_duration) =
      some (some 0) ∧ (100 : ℚ) - 0 ≠ 0 := by
  constructor
  · rw [endOfCall_found_duration (constClassifier outcomeOther) "call-7" "hello" "s"
      (some 0) (some 100) 1 none (dbW "call-7") (callLogW "call-7") invoiceW clientW
      (by decide) rfl rfl rfl]
    simp [durationModel]
  · norm_num

theorem jGet_obj_exists {v : JVal} {k : String} {d x : JVal}
    (h : jGet v k d = .ok x) : ∃ fs, v = JVal.jobj fs := by
  cases v
  case jobj fs => exact ⟨fs, rfl⟩
  all_goals simp [jGet] at h

theorem handleStatusUpdate_unknown (message call_data cid : JVal) (db : DB)
    (hcall : jGet message "call" (.jobj []) = .ok call_data)
    (hid : jGet call_data "id" .jnull = .ok cid)
    (hfind : db.call_logs.find? (logMatches cid) = none) :
    handleStatusUpdate message db = db := by
  obtain ⟨mfs, rfl⟩ := jGet_obj_exists hcall
  obtain ⟨cfs, rfl⟩ := jGet_obj_exists hid
  have hcd : (findJ mfs "call").getD (JVal.jobj []) = JVal.jobj cfs := by
    simpa [jGet] using hcall
  have hcid2 : (findJ cfs "id").getD JVal.jnull = cid := by
    simpa [jGet] using hid
  unfold handleStatusUpdate handleStatusUpdateRaw catchPy
  simp only [jGet, hcd, hcid2, hfind]
  by_cases ht : pyTruthy cid = true <;> simp [ht, hfind]

theorem handleEndOfCall_unknown (classify : String → String → Outcome)
    (message call_data cid : JVal) (db : DB)
    (hcall : jGet message "call" (.jobj []) = .ok call_data)
    (hid : jGet call_data "id" .jnull = .ok cid)
    (hfind : db.call_logs.find? (logMatches cid) = none) :
    handleEndOfCall classify message db = db := by
  obtain ⟨mfs, rfl⟩ := jGet_obj_exists hcall
  obtain ⟨cfs, rfl⟩ := jGet_obj_exists hid
  have hcd : (findJ mfs "call").getD (JVal.jobj []) = JVal.jobj cfs := by
    simpa [jGet] using hcall
  have hcid2 : (findJ cfs "id").getD JVal.jnull = cid := by
    simpa [jGet] using hid
  unfold handleEndOfCall handleEndOfCallRaw catchPy
  simp only [jGet, hcd, hcid2, hfind]
  by_cases ht : pyTruthy cid = true
  · simp only [ht, if_true]
    split
    · rename_i db2 heq
      split at heq
      · cases heq
      · injection heq with h2
        exact h2.symm
    · rfl
  · rw [if_neg ht]

/-- C3: an end-of-call report (or any webhook event) whose extracted call id
matches no stored CallLog leaves the store exactly unchanged — zero Client,
Invoice or CallLog rows created or mutated — and returns normally. -/
theorem C3_unknown_call_id (classify : String → String → Outcome)
    (payload message call_data cid : JVal) (db : DB)
    (hmsg : jGet payload "message" (.jobj []) = .ok message)
    (hcall : jGet message "call" (.jobj []) = .ok call_data)
    (hid : jGet call_data "id" .jnull = .ok cid)
    (hfind : db.call_logs.find? (logMatches cid) = none) :
    processCallWebhook classify payload db = db := by
  obtain ⟨pfs, rfl⟩ := jGet_obj_exists hmsg
  obtain ⟨mfs, hmeq⟩ := jGet_obj_exists hcall
  subst hmeq
  have hm : (findJ pfs "message").getD (JVal.jobj []) = JVal.jobj mfs := by
    simpa [jGet] using hmsg
  have hraw : processCallWebhookRaw classify (JVal.jobj pfs) db = .ok db := by
    unfold processCallWebhookRaw
    simp only [jGet, hm]
    split
    · rw [handleStatusUpdate_unknown _ _ _ db hcall hid hfind]
    · rw [handleEndOfCall_unknown classify _ _ _ db hcall hid hfind]
    · rfl
  unfold processCallWebhook
  rw [hraw]
  refine rfl

/-- Witness for C3: an end-of-call report for an unknown id on a one-log
store changes nothing. -/
theorem C3_unknown_call_id_witness :
    processCallWebhook (constClassifier outcomeOther)
      (JVal.jobj [("message", endMsg "unknown-id" "t" "s" none none 0 none)])
      (dbW "call-3") = dbW "call-3" :=
  C3_unknown_call_id (constClassifier outcomeOther) _ _ _ (JVal.jstr "unknown-id")
    (dbW "call-3") rfl rfl rfl rfl

/-- C9 (amended): event processing itself never raises — whenever the body
parses as JSON and the route's own logging access on the payload succeeds, the
route returns 200 with the orchestrator's (total) result; the 500 response is
reachable exactly from a body parse failure or from that logging access
failing on a payload whose message field is not a dictionary. -/
theorem C9_webhook_route (classify : String → String → Outcome)
    (parsed : Except String JVal) (db : DB) :
    ((vapiWebhook classify parsed db).2 = 500 ↔
      (∃ e, parsed = .error e) ∨
      (∃ p e, parsed = .ok p ∧ webhookLogAccess p = .error e)) ∧
    (∀ p r, parsed = .ok p → webhookLogAccess p = .ok r →
      vapiWebhook classify parsed db = (processCallWebhook classify p db, 200)) := by
  constructor
  · cases parsed with
    | error e => simp [vapiWebhook]
    | ok p =>
      cases hw : webhookLogAccess p with
      | error e => simp [vapiWebhook, hw]
      | ok r => simp [vapiWebhook, hw]
  · intro p r hp hw
    subst hp
    simp [vapiWebhook, hw]

/-- Witness for C9 (amended): the empty-object payload goes through event
processing and gets a 200. -/
theorem C9_webhook_route_witness :
    vapiWebhook (constClassifier outcomeOther) (.ok (JVal.jobj [])) emptyDB =
      (processCallWebhook (constClassifier outcomeOther) (JVal.jobj []) emptyDB, 200) :=
  (C9_webhook_route (constClassifier outcomeOther) (.ok (JVal.jobj [])) emptyDB).2
    (JVal.jobj []) (JVal.jstr "unknown") rfl rfl

/-- C9 counterexample: a body that parses as the JSON dictionary with
message = 5 still yields a 500 (from the route's logging access), while event
processing itself absorbs the same payload without raising, so the 500 is not
reachable only from body-parse failures. -/
theorem C9_webhook_route_counterexample :
    vapiWebhook (constClassifier outcomeOther)
        (.ok (JVal.jobj [("message", JVal.jnum 5)])) emptyDB = (emptyDB, 500) ∧
    processCallWebhook (constClassifier outcomeOther)
        (JVal.jobj [("message", JVal.jnum 5)]) emptyDB = emptyDB :=
  ⟨rfl, rfl⟩

theorem byContact_mkClient (sid : Option String) (ds : String) (nid : Nat) (p : PaymentRow) :
    byContact p (mkClient sid ds nid p) = true := by
  simp [byContact, mkClient]

theorem sheetOk_mkClient (sid : Option String) (ds : String) (nid : Nat) (p : PaymentRow) :
    sheetOk sid (mkClient sid ds nid p) := by
  intro h
  cases sid with
  | none => simp [pyTruthyOS] at h
  | some s =>
    simp only [mkClient, h, if_true]
    have : s ≠ "" := by
      by_contra he
      subst he
      simp [pyTruthyOS] at h
    simp

theorem find?_singleton_pos {α} {p : α → Bool} {x : α} (h : p x = true) :
    [x].find? p = some x := by
  simp [List.find?, h]

theorem syncOne_synced (sid : Option String) (ds : String) (db : DB) (p : PaymentRow) :
    synced sid (syncOne sid ds db p) p := by
  unfold syncOne
  rcases hfound : db.clients.find? (byContact p) with _ | c <;> simp only []
  · have hcli : (db.clients ++ [mkClient sid ds db.next_client_id p]).find? (byContact p) =
        some (mkClient sid ds db.next_client_id p) := by
      rw [find?_append_none _ hfound, find?_singleton_pos (byContact_mkClient sid ds _ p)]
    rcases hinvf : db.invoices.find? (byInvoice p) with _ | iv <;> simp only []
    · refine ⟨⟨mkClient sid ds db.next_client_id p, hcli, sheetOk_mkClient sid ds _ p⟩, ?_⟩
      refine ⟨mkInvoice db.next_invoice_id db.next_client_id p, ?_⟩
      show (db.invoices ++ [mkInvoice db.next_invoice_id db.next_client_id p]).find?
        (byInvoice p) = _
      rw [find?_append_none _ hinvf, find?_singleton_pos (by simp [byInvoice, mkInvoice])]
    · exact ⟨⟨mkClient sid ds db.next_client_id p, hcli, sheetOk_mkClient sid ds _ p⟩, iv, hinvf⟩
  · have hmatch : byContact p c = true := find?_some_of_find?_eq hfound
    by_cases hcond : (pyTruthyOS sid && !(c.google_sheet_id == sid)) = true
    · rw [if_pos hcond]
      have hcli := find?_updateFirstWhere (byContact p)
        (fun c2 => { c2 with google_sheet_id := sid }) db.clients c hfound
        (by simpa [byContact] using hmatch)
      have hok : sheetOk sid { c with google_sheet_id := sid } := fun _ => rfl
      rcases hinvf : db.invoices.find? (byInvoice p) with _ | iv <;> simp only []
      · refine ⟨⟨_, hcli, hok⟩, mkInvoice db.next_invoice_id c.id p, ?_⟩
        show (db.invoices ++ [mkInvoice db.next_invoice_id c.id p]).find? (byInvoice p) = _
        rw [find?_append_none _ hinvf, find?_singleton_pos (by simp [byInvoice, mkInvoice])]
      · exact ⟨⟨_, hcli, hok⟩, iv, hinvf⟩
    · rw [if_neg hcond]
      have hok : sheetOk sid c := by
        intro hpt
        have : (c.google_sheet_id == sid) = true := by
          rcases hc2 : (c.google_sheet_id == sid) with _ | _
          · exact absurd (by simp [hpt, hc2]) hcond
          · rfl
        simpa using this
      rcases hinvf : db.invoices.find? (byInvoice p) with _ | iv <;> simp only []
      · refine ⟨⟨c, hfound, hok⟩, mkInvoice db.next_invoice_id c.id p, ?_⟩
        show (db.invoices ++ [mkInvoice db.next_invoice_id c.id p]).find? (byInvoice p) = _
        rw [find?_append_none _ hinvf, find?_singleton_pos (by simp [byInvoice, mkInvoice])]
      · exact ⟨⟨c, hfound, hok⟩, iv, hinvf⟩

theorem syncOne_preserves (sid : Option String) (ds : String) (db : DB)
    (p q : PaymentRow) (h : synced sid db q) : synced sid (syncOne sid ds db p) q := by
  obtain ⟨⟨cq, hcq, hok⟩, ⟨iq, hiq⟩⟩ := h
  unfold syncOne
  rcases hfound : db.clients.find? (byContact p) with _ | c <;> simp only []
  · have hcli : (db.clients ++ [mkClient sid ds db.next_client_id p]).find?
        (byContact q) = some cq := find?_append_some _ hcq
    rcases hinvf : db.invoices.find? (byInvoice p) with _ | iv <;> simp only []
    · exact ⟨⟨cq, hcli, hok⟩, iq,
        show (db.invoices ++ [mkInvoice db.next_invoice_id db.next_client_id p]).find?
          (byInvoice q) = some iq from find?_append_some _ hiq⟩
    · exact ⟨⟨cq, hcli, hok⟩, iq, hiq⟩
  · by_cases hcond : (pyTruthyOS sid && !(c.google_sheet_id == sid)) = true
    · rw [if_pos hcond]
      have hpt : pyTruthyOS sid = true := by
        rcases hpt2 : pyTruthyOS sid with _ | _
        · rw [hpt2] at hcond
          simp at hcond
        · rfl
      have hcli : (updateFirstWhere (byContact p)
          (fun c2 => { c2 with google_sheet_id := sid }) db.clients).find? (byContact q) =
          some cq ∨
          ∃ c2, (updateFirstWhere (byContact p)
            (fun c2 => { c2 with google_sheet_id := sid }) db.clients).find? (byContact q) =
            some c2 ∧ sheetOk sid c2 := by
        by_cases hqp : q.contact_number = p.contact_number
        · have hpred : byContact q = byContact p := by
            funext x
            simp [byContact, hqp]
          rw [hpred]
          have hm : byContact p c = true := find?_some_of_find?_eq hfound
          refine Or.inr ⟨{ c with google_sheet_id := sid }, ?_, fun _ => rfl⟩
          exact find?_updateFirstWhere _ _ _ c hfound (by simpa [byContact] using hm)
        · refine Or.inl ?_
          rw [find?_updateFirstWhere_untouched _ _ _ _ ?_ ?_]
          · exact hcq
          · intro x hx
            simp only [byContact] at hx ⊢
            have : x.contact_number = q.contact_number := by simpa using hx
            simp [this, hqp]
          · intro x
            simp [byContact]
      have hcs : clientSynced sid { db with clients := (updateFirstWhere (byContact p)
          (fun c2 => { c2 with google_sheet_id := sid }) db.clients) } q := by
        rcases hcli with h1 | ⟨c2, h2, hok2⟩
        · exact ⟨cq, h1, hok⟩
        · exact ⟨c2, h2, hok2⟩
      rcases hinvf : db.invoices.find? (byInvoice p) with _ | iv <;> simp only []
      · exact ⟨hcs, iq, show (db.invoices ++ [mkInvoice db.next_invoice_id c.id p]).find?
          (byInvoice q) = some iq from find?_append_some _ hiq⟩
      · exact ⟨hcs, iq, hiq⟩
    · rw [if_neg hcond]
      rcases hinvf : db.invoices.find? (byInvoice p) with _ | iv <;> simp only []
      · exact ⟨⟨cq, hcq, hok⟩, iq,
          show (db.invoices ++ [mkInvoice db.next_invoice_id c.id p]).find?
            (byInvoice q) = some iq from find?_append_some _ hiq⟩
      · exact ⟨⟨cq, hcq, hok⟩, iq, hiq⟩

theorem syncOne_id (sid : Option String) (ds : String) (db : DB) (p : PaymentRow)
    (h : synced sid db p) : syncOne sid ds db p = db := by
  obtain ⟨⟨c, hc, hok⟩, ⟨i, hi⟩⟩ := h
  unfold syncOne
  rw [hc]
  simp only []
  have hcond : (pyTruthyOS sid && !(c.google_sheet_id == sid)) = false := by
    rcases hpt : pyTruthyOS sid with _ | _
    · simp
    · have hsheet := hok hpt
      simp [hsheet]
  rw [hcond]
  simp only [Bool.false_eq_true, if_false]
  rw [hi]

theorem sync_preserves (sid : Option String) (ds : String) (ps : List PaymentRow) :
    ∀ (db : DB) (q : PaymentRow), synced sid db q →
      synced sid (syncToDatabase sid ds db ps) q := by
  induction ps with
  | nil => exact fun db q h => h
  | cons p t ih =>
    intro db q h
    rw [syncToDatabase_cons]
    exact ih _ q (syncOne_preserves sid ds db p q h)

theorem sync_establishes (sid : Option String) (ds : String) (ps : List PaymentRow) :
    ∀ (db : DB) (q : PaymentRow), q ∈ ps →
      synced sid (syncToDatabase sid ds db ps) q := by
  induction ps with
  | nil =>
    intro db q h
    cases h
  | cons p t ih =>
    intro db q hq
    rw [syncToDatabase_cons]
    rcases List.mem_cons.mp hq with rfl | hq2
    · exact sync_preserves sid ds t (syncOne sid ds db q) q (syncOne_synced sid ds db q)
    · exact ih _ q hq2

theorem sync_id (sid : Option String) (ds : String) (ps : List PaymentRow) :
    ∀ db : DB, (∀ q ∈ ps, synced sid db q) → syncToDatabase sid ds db ps = db := by
  induction ps with
  | nil => exact fun db _ => rfl
  | cons p t ih =>
    intro db h
    rw [syncToDatabase_cons, syncOne_id sid ds db p (h p (by simp))]
    exact ih db (fun q hq => h q (by simp [hq]))

/-- C4: sync_to_database is idempotent — re-running it on its own output with
the identical payment rows returns the store unchanged: no new Client or
Invoice rows and no field changes. -/
theorem C4_sync_idempotent (sid : Option String) (ds : String) (db : DB)
    (ps : List PaymentRow) :
    syncToDatabase sid ds (syncToDatabase sid ds db ps) ps =
      syncToDatabase sid ds db ps :=
  sync_id sid ds ps _ (fun q hq => sync_establishes sid ds ps db q hq)

/-- C8: amount parsing maps each of the four spec examples to 55696.00 and
maps empty or unparsable input to 0.0 without raising. -/
theorem C8_parse_amount :
    parseAmount "₹55,696.00" = 55696 ∧ parseAmount "55696" = 55696 ∧
    parseAmount "Rs 55,696" = 55696 ∧ parseAmount " 55,696.00 " = 55696 ∧
    parseAmount "" = 0 ∧ parseAmount "N/A" = 0 ∧ parseAmount "1.2.3" = 0 := by
  refine ⟨?_, ?_, ?_, ?_, ?_, ?_, ?_⟩
  · rw [parseAmount, show parseAmountParts "₹55,696.00" = some (5569600, 2) from by decide]
    show ((5569600 : ℕ) : ℚ) / (10 : ℚ) ^ (2 : ℕ) = 55696
    norm_num
  · rw [parseAmount, show parseAmountParts "55696" = some (55696, 0) from by decide]
    show ((55696 : ℕ) : ℚ) / (10 : ℚ) ^ (0 : ℕ) = 55696
    norm_num
  · rw [parseAmount, show parseAmountParts "Rs 55,696" = some (55696, 0) from by decide]
    show ((55696 : ℕ) : ℚ) / (10 : ℚ) ^ (0 : ℕ) = 55696
    norm_num
  · rw [parseAmount, show parseAmountParts " 55,696.00 " = some (5569600, 2) from by decide]
    show ((5569600 : ℕ) : ℚ) / (10 : ℚ) ^ (2 : ℕ) = 55696
    norm_num
  · rfl
  · rw [parseAmount, show parseAmountParts "N/A" = none from by decide]
    rfl
  · rw [parseAmount, show parseAmountParts "1.2.3" = none from by decide]
    rfl

theorem listContains_iff_infix {hay needle : List Char} :
    listContains hay needle = true ↔ needle <:+: hay := by
  induction hay with
  | nil =>
    simp only [listContains, List.isEmpty_iff]
    constructor
    · rintro rfl
      exact List.infix_refl _
    · intro h
      exact List.eq_nil_of_infix_nil h
  | cons a t ih =>
    simp only [listContains, Bool.or_eq_true, ih, List.infix_cons_iff,
      List.isPrefixOf_iff_prefix]

theorem trimChars_sub (l : List Char) : trimChars l <:+: l := by
  unfold trimChars
  have h1 : l.dropWhile Char.isWhitespace <:+ l := List.dropWhile_suffix _
  have h2 : (l.dropWhile Char.isWhitespace).reverse.dropWhile Char.isWhitespace <:+
      (l.dropWhile Char.isWhitespace).reverse := List.dropWhile_suffix _
  have h3 : ((l.dropWhile Char.isWhitespace).reverse.dropWhile Char.isWhitespace).reverse <+:
      l.dropWhile Char.isWhitespace := by
    rw [← List.reverse_suffix]
    simpa using h2
  exact h3.isInfix.trans h1.isInfix

theorem pyContains_strip_lower {inv kw : String}
    (h : pyContains (pyLower inv) kw = false) :
    pyContains (pyLower (pyStrip inv)) kw = false := by
  cases h2 : pyContains (pyLower (pyStrip inv)) kw
  · rfl
  · exfalso
    have hinf : kw.toList <:+: (trimChars inv.toList).map Char.toLower :=
      listContains_iff_infix.mp h2
    have hmono : (trimChars inv.toList).map Char.toLower <:+:
        inv.toList.map Char.toLower := (trimChars_sub inv.toList).map _
    have h3 : listContains (inv.toList.map Char.toLower) kw.toList = true :=
      listContains_iff_infix.mpr (hinf.trans hmono)
    have h4 : pyContains (pyLower inv) kw = true := h3
    rw [h] at h4
    cases h4

theorem invoiceKwHit_strip {inv : String}
    (h : invoiceKwHit (pyLower inv) = false) :
    invoiceKwHit (pyLower (pyStrip inv)) = false := by
  simp only [invoiceKwHit, Bool.or_eq_false_iff] at h ⊢
  obtain ⟨⟨⟨h1, h2⟩, h3⟩, h4⟩ := h
  exact ⟨⟨⟨pyContains_strip_lower h1, pyContains_strip_lower h2⟩,
    pyContains_strip_lower h3⟩, pyContains_strip_lower h4⟩

theorem processRows_mem (cn co ct : String) :
    ∀ (idx : Nat) (rows : List (List String)) (p : PaymentRow),
      p ∈ processRows cn co ct idx rows →
      0 < p.amount_due ∧ p.invoice_id ≠ "" ∧ p.contact_number ≠ "" ∧
      invoiceKwHit (pyLower p.invoice_id) = false := by
  intro idx rows
  induction rows generalizing idx with
  | nil =>
    intro p hp
    cases hp
  | cons row rest ih =>
    intro p hp
    unfold processRows at hp
    try simp only [] at hp
    split at hp
    · exact ih _ p hp
    · try simp only [] at hp
      split at hp
      · exact ih _ p hp
      · try simp only [] at hp
        split at hp
        · exact ih _ p hp
        · try simp only [] at hp
          split at hp
          · exact ih _ p hp
          · rename_i hempty hinv hkw hpend
            try simp only [] at hp
            split at hp
            · rename_i hcond
              rcases List.mem_cons.mp hp with rfl | h2
              · have hkw2 : invoiceKwHit (pyLower (cellAt row 6 "")) = false := by
                  cases hkwv : invoiceKwHit (pyLower (cellAt row 6 ""))
                  · rfl
                  · exact absurd hkwv hkw
                have hand := (Bool.and_eq_true _ _).mp hcond
                refine ⟨lt_of_not_le hpend, ?_, ?_, invoiceKwHit_strip hkw2⟩
                · intro he
                  have h5 := hand.2
                  simp only [] at he
                  rw [he] at h5
                  simp at h5
                · intro he
                  have h5 := hand.1
                  simp only [] at he
                  rw [he] at h5
                  simp at h5
              · exact ih _ p h2
            · exact ih _ p hp

/-- C10: every row returned by get_pending_payments has a strictly positive
parsed pending amount, a non-empty invoice identifier and a non-empty contact
number, and its invoice cell contains no summary-row keyword — rows failing
any of these are excluded. -/
theorem C10_pending_rows (grid : List (List String)) (p : PaymentRow)
    (hp : p ∈ getPendingPayments grid) :
    0 < p.amount_due ∧ p.invoice_id ≠ "" ∧ p.contact_number ≠ "" ∧
    invoiceKwHit (pyLower p.invoice_id) = false := by
  unfold getPendingPayments at hp
  split at hp
  · cases hp
  · exact processRows_mem _ _ _ _ _ p hp

set_option maxRecDepth 8000 in
/-- Witness for C10 on the concrete grid. -/
theorem C10_pending_rows_witness :
    0 < pendingW.amount_due ∧ pendingW.invoice_id ≠ "" ∧
    pendingW.contact_number ≠ "" ∧ invoiceKwHit (pyLower pendingW.invoice_id) = false :=
  C10_pending_rows gridW pendingW
    (by rw [show getPendingPayments gridW = [pendingW] from by with_unfolding_all rfl]
        exact List.mem_singleton.mpr rfl)

end PaymentCaller
